import Mathlib

/-!
Shallow embedding of the PII detection/redaction engine of this repository.

The repository holds two near-duplicate Python implementations:
  * `src/detector_full_harish_madhavan_j_u.py` — classes `PersonalInfoFinder`
    and `PersonalInfoHider` (anchored `fullmatch` regexes over the
    whitespace-stripped text of a value);
  * `src/sol1.2.py` — classes `PIIDetector` and `PIIRedactor`
    (unanchored `search` regexes with `\b` word boundaries over the raw text).

Records are Python dicts: here association lists `List (String × Value)`
preserving insertion order.  Scalar JSON values are modelled by `Value`
(string, integer, boolean, null); Python truthiness and `str(...)` are made
explicit.  Regex character classes (`\d`, `\s`, `\w`, `[A-Z]`, ...) are
modelled over their ASCII meaning, which is what every value occurring in the
repository's rules exercises.  The one reachable runtime exception
(`text[0]` on an empty string inside `PersonalInfoHider.hide_value`) is
modelled by an `Option` result: `none` is a raised `IndexError`.
-/

/-- A scalar JSON value held by a record field (Python: str / int / bool / None). -/
inductive Value where
  | str (s : String)
  | num (n : Int)
  | bool (b : Bool)
  | null
deriving DecidableEq

/-- Python `str(value)` on a scalar. -/
def py_str : Value → String
  | .str s => s
  | .num n => toString n
  | .bool true => "True"
  | .bool false => "False"
  | .null => "None"

/-- Python truthiness of a scalar (`bool(value)`): falsy values are
`None`, `""`, `0` and `False`. -/
def truthy : Value → Bool
  | .str s => !(s == "")
  | .num n => !(n == 0)
  | .bool b => b
  | .null => false

/-- Python `value is None`. -/
def is_null : Value → Bool
  | .null => true
  | _ => false

/-- ASCII whitespace stripped by Python `str.strip()` and matched by `\s`. -/
def is_py_space (c : Char) : Bool :=
  c.toNat == 32 || c.toNat == 9 || c.toNat == 10 || c.toNat == 13 ||
  c.toNat == 11 || c.toNat == 12

/-- ASCII decimal digit (`\d`, `[0-9]`). -/
def is_digit_ch (c : Char) : Bool := 48 ≤ c.toNat && c.toNat ≤ 57

/-- ASCII uppercase letter (`[A-Z]`). -/
def is_upper_ch (c : Char) : Bool := 65 ≤ c.toNat && c.toNat ≤ 90

/-- ASCII lowercase letter (`[a-z]`). -/
def is_lower_ch (c : Char) : Bool := 97 ≤ c.toNat && c.toNat ≤ 122

/-- ASCII letter (`[A-Za-z]`). -/
def is_alpha_ch (c : Char) : Bool := is_upper_ch c || is_lower_ch c

/-- ASCII word character (`\w` = letter, digit or underscore). -/
def is_word_ch (c : Char) : Bool := is_alpha_ch c || is_digit_ch c || c.toNat == 95

/-- Python `str.lower()` on an ASCII character. -/
def to_lower_ch (c : Char) : Char :=
  if is_upper_ch c then Char.ofNat (c.toNat + 32) else c

/-- Python `str.lower()`. -/
def to_lower_list (l : List Char) : List Char := l.map to_lower_ch

/-- Python `str.strip()` (ASCII whitespace). -/
def py_strip (s : String) : String :=
  ⟨((s.data.dropWhile is_py_space).reverse.dropWhile is_py_space).reverse⟩

/-- Split a character list at every character satisfying `p`
(Python `str.split(sep)` semantics: `n` separators yield `n+1` parts). -/
def split_pred (p : Char → Bool) : List Char → List (List Char)
  | [] => [[]]
  | a :: rest =>
    match split_pred p rest with
    | [] => [[]]
    | h :: t => if p a then [] :: h :: t else (a :: h) :: t

/-- Python `text.split(c)` for a one-character separator. -/
def split_on (c : Char) (l : List Char) : List (List Char) :=
  split_pred (fun a => a == c) l

/-- Python `str.split()` with no argument: split on whitespace runs,
discarding empty parts. -/
def py_split_ws (l : List Char) : List (List Char) :=
  (split_pred is_py_space l).filter (fun x => !x.isEmpty)

/-- Python `c in text` for a single character `c`. -/
def ch_in (c : Char) (l : List Char) : Bool := l.any (fun a => a == c)

/-- Python `x in xs` for a list of strings (models membership in the
`upi_domains` set and the `field in [...]` tests). -/
def py_in_strs (x : String) (l : List String) : Bool := l.any (fun y => y == x)

/-- Truthiness of `record.get(f)` (absent key is `None`, hence falsy). -/
def opt_truthy : Option Value → Bool
  | some v => truthy v
  | none => false

/-- Python `record.get(f)` on an association-list record. -/
def py_get (r : List (String × Value)) (f : String) : Option Value :=
  List.lookup f r

/-- Consume exactly four ASCII digits (`\d{4}`), returning the rest. -/
def eat_digits4 : List Char → Option (List Char)
  | a :: b :: c :: d :: rest =>
    if is_digit_ch a && is_digit_ch b && is_digit_ch c && is_digit_ch d then
      some rest
    else none
  | _ => none

/-- Consume at most one whitespace character (`\s?`).  Because `\s` and the
following `\d` are disjoint classes, the greedy regex is deterministic: a
leading whitespace character must be consumed. -/
def eat_ws_opt : List Char → List Char
  | c :: rest => if is_py_space c then rest else c :: rest
  | [] => []

/-- Python `str(full_name).strip().split()` check of `_is_full_name`:
two or more whitespace-separated parts, each alphabetic. -/
def full_name_str (s : String) : Bool :=
  let parts := py_split_ws (py_strip s).data
  decide (2 ≤ parts.length) && parts.all (fun p => p.all is_alpha_ch)

/-- Character class of the email local part: `[A-Za-z0-9._%+-]`. -/
def local_ch (c : Char) : Bool :=
  is_alpha_ch c || is_digit_ch c || c == '.' || c == '_' || c == '%' ||
  c == '+' || c == '-'

/-- Character class of the email domain: `[A-Za-z0-9.-]`. -/
def dom_ch (c : Char) : Bool :=
  is_alpha_ch c || is_digit_ch c || c == '.' || c == '-'

/-- Match `[A-Za-z0-9.-]+\.TLD{2,}` against exactly `l`, where `tld` is the
character class of the top-level domain: some position holds the final
literal dot, preceded by a non-empty run of domain characters and followed
by two or more TLD characters reaching the end. -/
def email_tail (tld : Char → Bool) (l : List Char) : Bool :=
  (List.range l.length).any fun i =>
    (l.getD i ' ' == '.') && decide (0 < i) && (l.take i).all dom_ch &&
    decide (2 ≤ (l.drop (i + 1)).length) && (l.drop (i + 1)).all tld

/-- Match the full email grammar `[A-Za-z0-9._%+-]+@[A-Za-z0-9.-]+\.TLD{2,}`
against exactly `l`.  No character class contains `@`, so a match forces
exactly one `@` in `l`. -/
def email_core (tld : Char → Bool) (l : List Char) : Bool :=
  match split_on '@' l with
  | [u, d] => decide (0 < u.length) && u.all local_ch && email_tail tld d
  | _ => false

/-- `\b` word-boundary test of Python `re` at position `i` of `l`
(positions run from `0` to `l.length`; outside the string counts as
non-word). -/
def word_at (l : List Char) (i : Nat) : Bool :=
  match l.get? i with
  | some c => is_word_ch c
  | none => false

/-- Word boundary `\b` holds at position `i` iff the word-ness of the
characters on the two sides differs. -/
def bnd (l : List Char) (i : Nat) : Bool :=
  (if i == 0 then false else word_at l (i - 1)) != word_at l i

/-- The three combinatorial PII groups that can be collected while scanning
a record (`groups`/`present_groups` sets in the sources). -/
structure Groups where
  gname : Bool
  gemail : Bool
  gaddr : Bool

/-- Size of the collected group set (`len(groups)`). -/
def Groups.size (g : Groups) : Nat :=
  g.gname.toNat + g.gemail.toNat + g.gaddr.toNat

namespace PersonalInfoFinder

/-- The `upi_domains` allow-list of `PersonalInfoFinder.__init__`. -/
def upi_domains : List String :=
  ["abcdicici", "apl", "yapl", "rapl", "abfspay", "bpunity", "jarunity",
   "axisb", "yescred", "yescurie", "yesfam", "fifederal", "fkaxis",
   "freoicici", "okaxis", "okhdfcbank", "okicici", "oksbi", "yesg",
   "inhdfc", "jupiteraxis", "goaxb", "kbaxis", "kphdfc", "ikwik",
   "mvhdfc", "naviaxis", "niyoicici", "oneyes", "paytm", "ptyes",
   "ptaxis", "pthdfc", "ptsbi", "ybl", "ibl", "axl", "yespop", "rmrbl",
   "pingpay", "seyes", "shriramhdfcbank", "superyes", "tapicici",
   "timecosmos", "axisbank", "yestp", "idfcbank", "waicici", "icici",
   "waaxis", "wahdfcbank", "wasbi"]

/-- `self.phone_re.fullmatch(text)`: `^\d{10}$`. -/
def phone_fullmatch (l : List Char) : Bool :=
  decide (l.length = 10) && l.all is_digit_ch

/-- `self.aadhar_re.fullmatch(text)`: `^\d{4}\s?\d{4}\s?\d{4}$`.
`\s?` is deterministic here because `\s` and `\d` are disjoint. -/
def aadhar_fullmatch (l : List Char) : Bool :=
  match eat_digits4 l with
  | none => false
  | some r =>
    match eat_digits4 (eat_ws_opt r) with
    | none => false
    | some r2 =>
      match eat_digits4 (eat_ws_opt r2) with
      | some r3 => r3.isEmpty
      | none => false

/-- `self.passport_re.fullmatch(text)`: `^[A-Z]\d{7}$`. -/
def passport_fullmatch (l : List Char) : Bool :=
  match l with
  | c :: rest => is_upper_ch c && decide (rest.length = 7) && rest.all is_digit_ch
  | [] => false

/-- `self.email_re.fullmatch(text)` for
`[A-Za-z0-9._%+-]+@[A-Za-z0-9.-]+\.[A-Za-z]{2,}`. -/
def email_fullmatch (l : List Char) : Bool :=
  email_core is_alpha_ch l

/-- One iteration of the `check_single` loop body for a field: `none` means
the loop assigns no verdict for this field (falsy value, or the `"@" in
text` branch whose inner test fails), `some b` means `found[field] = b`. -/
def single_step (f : String) (v : Value) : Option Bool :=
  if truthy v then
    let l := (py_strip (py_str v)).data
    if f == "phone" || phone_fullmatch l then some true
    else if f == "aadhar" || aadhar_fullmatch l then some true
    else if f == "passport" || passport_fullmatch l then some true
    else if f == "email" || email_fullmatch l then some true
    else if ch_in '@' l then
      let parts := split_on '@' l
      if decide (parts.length = 2) &&
          py_in_strs (String.mk (to_lower_list (parts.getD 1 []))) upi_domains then
        some true
      else none
    else some false
  else none

/-- `PersonalInfoFinder.check_single`: the per-field standalone map, in
record iteration order. -/
def check_single (r : List (String × Value)) : List (String × Bool) :=
  r.filterMap fun p => (single_step p.1 p.2).map fun b => (p.1, b)

/-- `PersonalInfoFinder._is_full_name`. -/
def is_full_name (v : Value) : Bool := full_name_str (py_str v)

/-- `PersonalInfoFinder._has_both_names`. -/
def has_both_names (r : List (String × Value)) : Bool :=
  opt_truthy (py_get r "first_name") && opt_truthy (py_get r "last_name")

/-- `PersonalInfoFinder._is_full_address`: at least two truthy values among
`address`, `city`, `pin_code`. -/
def is_full_address (r : List (String × Value)) : Bool :=
  decide (2 ≤ (["address", "city", "pin_code"].countP
    (fun f => opt_truthy (py_get r f))))

/-- One iteration of the `check_combined` loop body. -/
def comb_step (r : List (String × Value)) (g : Groups) (p : String × Value) :
    Groups :=
  if !truthy p.2 || py_strip (py_str p.2) == "" then g
  else if py_in_strs p.1 ["name", "first_name", "last_name"] then
    (if p.1 == "name" && is_full_name p.2 then { g with gname := true }
     else if (p.1 == "first_name" || p.1 == "last_name") && has_both_names r then
       { g with gname := true }
     else g)
  else if py_in_strs p.1 ["email"] then
    (if email_fullmatch (py_str p.2).data then { g with gemail := true } else g)
  else if py_in_strs p.1 ["address", "city", "pin_code", "state"] then
    (if is_full_address r then { g with gaddr := true } else g)
  else g

/-- `PersonalInfoFinder.check_combined`: at least two distinct groups. -/
def check_combined (r : List (String × Value)) : Bool :=
  decide (2 ≤ (r.foldl (comb_step r) ⟨false, false, false⟩).size)

/-- `PersonalInfoFinder.detect_pii`. -/
def detect_pii (r : List (String × Value)) : Bool :=
  (check_single r).any (fun p => p.2) || check_combined r

end PersonalInfoFinder

/-- `text.split("@", 1)` first component, when `'@' ∈ l`. -/
def before_at_sign (l : List Char) : List Char :=
  l.takeWhile (fun a => !(a == '@'))

/-- `text.split("@", 1)` second component, when `'@' ∈ l`. -/
def after_at_sign (l : List Char) : List Char :=
  (l.dropWhile (fun a => !(a == '@'))).drop 1

/-- `user[:2] + "X" * (len(user) - 2) + "@" + domain` for
`user, domain = text.split("@", 1)`.  Python string repetition with a
negative count yields the empty string, matching truncated subtraction. -/
def mask_at_sign (l : List Char) : String :=
  String.mk ((before_at_sign l).take 2 ++
    List.replicate ((before_at_sign l).length - 2) 'X' ++
    '@' :: after_at_sign l)

namespace PersonalInfoHider

/-- `PersonalInfoHider.hide_value`.  The result is `none` exactly when the
Python code raises `IndexError`: the name-field branch evaluates `text[0]`
on the whitespace-stripped text, which is empty for a truthy whitespace-only
value.  The source is a sequence of `if ... return` statements; the `"@" in
text` block falls through to the name branch when the domain is not in the
allow-list, which is rendered by the conjunction in that branch's guard. -/
def hide_value (f : String) (v : Value) : Option Value :=
  if truthy v then
    let l := (py_strip (py_str v)).data
    if f == "phone" || PersonalInfoFinder.phone_fullmatch l then
      some (.str (String.mk (l.take 2 ++ List.replicate (l.length - 4) 'X' ++
        l.drop (l.length - 2))))
    else if f == "aadhar" || PersonalInfoFinder.aadhar_fullmatch l then
      some (.str (String.mk ("XXXX XXXX ".data ++ l.drop (l.length - 4))))
    else if f == "passport" then some (.str "XXXXXXX")
    else if PersonalInfoFinder.email_fullmatch l then some (.str (mask_at_sign l))
    else if ch_in '@' l &&
        py_in_strs (String.mk (to_lower_list (after_at_sign l)))
          PersonalInfoFinder.upi_domains then
      some (.str (mask_at_sign l))
    else if py_in_strs f ["name", "first_name", "last_name"] then
      match l with
      | c :: rest => some (.str (String.mk (c :: List.replicate rest.length 'X')))
      | [] => none
    else if py_in_strs f ["address", "city", "pin_code", "state"] then
      some (.str "[REDACTED_ADDRESS]")
    else some v
  else some v

/-- The field loop of `hide_record`: `flags` is the precomputed
`check_single` map and `comb` the (pure, record-constant) value of
`check_combined`; `none` propagates the first raised exception. -/
def hide_fields (flags : List (String × Bool)) (comb : Bool) :
    List (String × Value) → Option (List (String × Value))
  | [] => some []
  | p :: rest =>
    match (if (List.lookup p.1 flags).getD false || comb then
             hide_value p.1 p.2
           else some p.2) with
    | none => none
    | some v' =>
      match hide_fields flags comb rest with
      | none => none
      | some rest' => some ((p.1, v') :: rest')

/-- `PersonalInfoHider.hide_record`. -/
def hide_record (r : List (String × Value)) (has_pii : Bool) :
    Option (List (String × Value)) :=
  if has_pii then
    hide_fields (PersonalInfoFinder.check_single r)
      (PersonalInfoFinder.check_combined r) r
  else some r

end PersonalInfoHider

namespace PIIDetector

/-- Match `\d{10}\b` against a prefix of `s` (the leading `\b` is checked by
the caller).  The trailing boundary after a digit is "next character is not
a word character, or end of string". -/
def phone_from (s : List Char) : Bool :=
  decide ((s.take 10).length = 10) && (s.take 10).all is_digit_ch &&
    (match s.drop 10 with
     | [] => true
     | c :: _ => !is_word_ch c)

/-- `self.phone_pattern.search(value_str)`: `\b\d{10}\b`. -/
def phone_search (l : List Char) : Bool :=
  (List.range (l.length + 1)).any fun i => bnd l i && phone_from (l.drop i)

/-- Match `\d{4}\s*\d{4}\s*\d{4}\b` against a prefix of `s`.  `\s*` is
deterministic (greedy) because `\s` and `\d` are disjoint classes. -/
def aadhar_from (s : List Char) : Bool :=
  match eat_digits4 s with
  | none => false
  | some r =>
    match eat_digits4 (r.dropWhile is_py_space) with
    | none => false
    | some r2 =>
      match eat_digits4 (r2.dropWhile is_py_space) with
      | none => false
      | some r3 =>
        match r3 with
        | [] => true
        | c :: _ => !is_word_ch c

/-- `self.aadhar_pattern.search(value_str)`: `\b\d{4}\s*\d{4}\s*\d{4}\b`. -/
def aadhar_search (l : List Char) : Bool :=
  (List.range (l.length + 1)).any fun i => bnd l i && aadhar_from (l.drop i)

/-- Match `[A-Z]\d{7}\b` against a prefix of `s`. -/
def passport_from (s : List Char) : Bool :=
  match s with
  | c :: rest =>
    is_upper_ch c && decide ((rest.take 7).length = 7) &&
    (rest.take 7).all is_digit_ch &&
    (match rest.drop 7 with
     | [] => true
     | b :: _ => !is_word_ch b)
  | [] => false

/-- `self.passport_pattern.search(value_str)`: `\b[A-Z]\d{7}\b`. -/
def passport_search (l : List Char) : Bool :=
  (List.range (l.length + 1)).any fun i => bnd l i && passport_from (l.drop i)

/-- Match `[\w\d]+@[\w\d]+\b` against a prefix of `s`.  `\w+` is greedy and
deterministic against the disjoint `@`; the trailing `\b` after the maximal
word run always holds. -/
def upi_from (s : List Char) : Bool :=
  decide (0 < (s.takeWhile is_word_ch).length) &&
    (match s.dropWhile is_word_ch with
     | a :: rest => a == '@' && decide (0 < (rest.takeWhile is_word_ch).length)
     | [] => false)

/-- `self.upi_pattern.search(value_str)`: `\b[\w\d]+@[\w\d]+\b`. -/
def upi_search (l : List Char) : Bool :=
  (List.range (l.length + 1)).any fun i => bnd l i && upi_from (l.drop i)

/-- TLD class of `sol1.2.py`'s email pattern `[A-Z|a-z]{2,}`: an ASCII
letter or a literal pipe. -/
def tld2_ch (c : Char) : Bool := is_alpha_ch c || c == '|'

/-- `self.email_pattern.search(value_str)`:
`\b[A-Za-z0-9._%+-]+@[A-Za-z0-9.-]+\.[A-Z|a-z]{2,}\b` — some slice of `l`
delimited by word boundaries matches the core email grammar exactly. -/
def email_search (l : List Char) : Bool :=
  (List.range (l.length + 1)).any fun i =>
    bnd l i && (List.range (l.length + 1)).any fun j =>
      decide (i < j) && bnd l j && email_core tld2_ch ((l.drop i).take (j - i))

/-- One iteration of the `detect_standalone_pii` loop body: `none` means the
field was skipped (`value is None`), otherwise its boolean verdict. -/
def standalone_step (f : String) (v : Value) : Option Bool :=
  if is_null v then none
  else
    let l := (py_str v).data
    some (if f == "phone" || phone_search l then true
      else if f == "aadhar" || aadhar_search l then true
      else if f == "passport" || passport_search l then true
      else if f == "upi_id" || (upi_search l && ch_in '@' l) then true
      else false)

/-- `PIIDetector.detect_standalone_pii`. -/
def detect_standalone_pii (r : List (String × Value)) : List (String × Bool) :=
  r.filterMap fun p => (standalone_step p.1 p.2).map fun b => (p.1, b)

/-- `PIIDetector._is_full_name` (applied to `str(value)`). -/
def is_full_name (s : String) : Bool := full_name_str s

/-- `PIIDetector._has_both_names`: both names present, truthy and non-blank
after stripping. -/
def has_both_names (r : List (String × Value)) : Bool :=
  (match py_get r "first_name" with
   | some v => truthy v && !(py_strip (py_str v) == "")
   | none => false) &&
  (match py_get r "last_name" with
   | some v => truthy v && !(py_strip (py_str v) == "")
   | none => false)

/-- `PIIDetector._is_complete_address`: at least two truthy, non-blank
values among `address`, `city`, `pin_code`. -/
def is_complete_address (r : List (String × Value)) : Bool :=
  decide (2 ≤ (["address", "city", "pin_code"].countP fun f =>
    match py_get r f with
    | some v => truthy v && !(py_strip (py_str v) == "")
    | none => false))

/-- One iteration of the `detect_combinatorial_pii` loop body. -/
def comb_step (r : List (String × Value)) (g : Groups) (p : String × Value) :
    Groups :=
  if is_null p.2 || py_strip (py_str p.2) == "" then g
  else if py_in_strs p.1 ["name", "first_name", "last_name"] then
    (if p.1 == "name" || is_full_name (py_str p.2) then { g with gname := true }
     else if p.1 == "first_name" || p.1 == "last_name" then
       (if has_both_names r then { g with gname := true } else g)
     else g)
  else if py_in_strs p.1 ["email"] then
    (if email_search (py_str p.2).data then { g with gemail := true } else g)
  else if py_in_strs p.1 ["address", "city", "pin_code", "state"] then
    (if is_complete_address r then { g with gaddr := true } else g)
  else g

/-- `PIIDetector.detect_combinatorial_pii`. -/
def detect_combinatorial_pii (r : List (String × Value)) : Bool :=
  decide (2 ≤ (r.foldl (comb_step r) ⟨false, false, false⟩).size)

/-- `PIIDetector.detect_pii`. -/
def detect_pii (r : List (String × Value)) : Bool :=
  (detect_standalone_pii r).any (fun p => p.2) || detect_combinatorial_pii r

end PIIDetector

namespace PIIRedactor

/-- `PIIRedactor.redact_value` (total: every branch either returns a masked
string or falls through to `return value`). -/
def redact_value (f : String) (v : Value) : Value :=
  if is_null v then v
  else
    let l := (py_str v).data
    if f == "phone" || PIIDetector.phone_search l then
      (if 10 ≤ l.length then
        .str (String.mk (l.take 2 ++ List.replicate (l.length - 4) 'X' ++
          l.drop (l.length - 2)))
       else v)
    else if ch_in '@' l && PIIDetector.email_search l then
      let parts := split_on '@' l
      let p0 := parts.getD 0 []
      (if 2 < p0.length then
        .str (String.mk (p0.take 2 ++ List.replicate (p0.length - 2) 'X' ++
          '@' :: parts.getD 1 []))
       else v)
    else if py_in_strs f ["name", "first_name", "last_name"] then
      (if 1 < l.length then
        .str (String.mk (l.take 1 ++ List.replicate (l.length - 1) 'X'))
       else v)
    else if f == "address" then .str "[REDACTED_ADDRESS]"
    else if f == "aadhar" then .str "[REDACTED_AADHAR]"
    else if f == "passport" then .str "[REDACTED_PASSPORT]"
    else if f == "upi_id" then .str "[REDACTED_UPI]"
    else v

/-- `PIIRedactor.redact_record`. -/
def redact_record (r : List (String × Value)) (is_pii : Bool) :
    List (String × Value) :=
  if is_pii then
    let flags := PIIDetector.detect_standalone_pii r
    r.map fun p =>
      if (List.lookup p.1 flags).getD false then (p.1, redact_value p.1 p.2)
      else if py_in_strs p.1 ["name", "first_name", "last_name"] ||
          py_in_strs p.1 ["email"] ||
          py_in_strs p.1 ["address", "city", "pin_code", "state"] then
        (if PIIDetector.detect_combinatorial_pii r then
          (p.1, redact_value p.1 p.2)
         else p)
      else p
  else r

end PIIRedactor

/-! ### Helper lemmas -/

theorem length_split_pred (p : Char → Bool) (l : List Char) :
    (split_pred p l).length = l.countP p + 1 := by
  induction l with
  | nil => simp [split_pred]
  | cons a rest ih =>
    simp only [split_pred]
    cases hr : split_pred p rest with
    | nil => simp [hr] at ih
    | cons h t =>
      by_cases hp : p a = true
      · simp [hp, List.countP_cons, hr] at ih ⊢; omega
      · simp only [Bool.not_eq_true] at hp
        simp [hp, List.countP_cons, hr] at ih ⊢; omega

theorem length_split_on (c : Char) (l : List Char) :
    (split_on c l).length = l.countP (fun a => a == c) + 1 := by
  simp [split_on, length_split_pred]

theorem split_pred_of_none (p : Char → Bool) (l : List Char)
    (h : ∀ a ∈ l, p a = false) : split_pred p l = [l] := by
  induction l with
  | nil => simp [split_pred]
  | cons a rest ih =>
    have ha : p a = false := h a (by simp)
    have := ih (fun x hx => h x (by simp [hx]))
    simp [split_pred, this, ha]

theorem ch_in_eq_false (c : Char) (l : List Char)
    (h : ∀ a ∈ l, (a == c) = false) : ch_in c l = false := by
  simp only [ch_in, List.any_eq_false]
  intro a ha
  simp [h a ha]

theorem countP_eq_zero_of_none (p : Char → Bool) (l : List Char)
    (h : ∀ a ∈ l, p a = false) : l.countP p = 0 := by
  apply List.countP_eq_zero.mpr
  intro a ha
  simp [h a ha]

theorem upper_ch_facts (c : Char) (h : is_upper_ch c = true) :
    is_digit_ch c = false ∧ (c == '@') = false := by
  simp only [is_upper_ch, Bool.and_eq_true, decide_eq_true_eq] at h
  refine ⟨?_, ?_⟩
  · have h2 : ¬(c.toNat ≤ 57) := by omega
    simp [is_digit_ch, h2]
  · apply beq_eq_false_iff_ne.mpr
    intro hc
    subst hc
    revert h
    decide

theorem digit_ch_facts (c : Char) (h : is_digit_ch c = true) :
    (c == '@') = false := by
  simp only [is_digit_ch, Bool.and_eq_true, decide_eq_true_eq] at h
  apply beq_eq_false_iff_ne.mpr
  intro hc
  subst hc
  revert h
  decide

theorem eat_digits4_none (a : Char) (l : List Char)
    (h : is_digit_ch a = false) : eat_digits4 (a :: l) = none := by
  rcases l with _ | ⟨b, _ | ⟨c, _ | ⟨d, rest⟩⟩⟩ <;> simp [eat_digits4, h]

/-- Structural consequences of a full passport match: a passport-shaped
string is 8 characters, contains no `@`, and matches none of the phone,
national-ID or email rules. -/
theorem passport_shape (l : List Char)
    (h : PersonalInfoFinder.passport_fullmatch l = true) :
    PersonalInfoFinder.phone_fullmatch l = false ∧
    PersonalInfoFinder.aadhar_fullmatch l = false ∧
    PersonalInfoFinder.email_fullmatch l = false ∧
    ch_in '@' l = false := by
  match l with
  | [] => simp [PersonalInfoFinder.passport_fullmatch] at h
  | c :: rest =>
    simp only [PersonalInfoFinder.passport_fullmatch, Bool.and_eq_true,
      decide_eq_true_eq] at h
    obtain ⟨⟨hu, hlen⟩, hdig⟩ := h
    have hnotat : ∀ a ∈ c :: rest, (a == '@') = false := by
      intro a ha
      rcases List.mem_cons.mp ha with rfl | hmem
      · exact (upper_ch_facts a hu).2
      · exact digit_ch_facts a (by
          have := List.all_eq_true.mp hdig a hmem
          simpa using this)
    refine ⟨?_, ?_, ?_, ?_⟩
    · simp only [PersonalInfoFinder.phone_fullmatch]
      have : (c :: rest).length = 8 := by simp [hlen]
      simp [this]
    · simp only [PersonalInfoFinder.aadhar_fullmatch]
      rw [eat_digits4_none c rest (upper_ch_facts c hu).1]
    · simp only [PersonalInfoFinder.email_fullmatch, email_core, split_on]
      rw [split_pred_of_none _ _ (by intro a ha; simpa using hnotat a ha)]
    · exact ch_in_eq_false _ _ hnotat

theorem map_fst_map_of_fst_eq {α β : Type} (fn : α × β → α × β)
    (hfn : ∀ p, (fn p).1 = p.1) (l : List (α × β)) :
    (l.map fn).map Prod.fst = l.map Prod.fst := by
  induction l with
  | nil => rfl
  | cons p rest ih => simp [hfn, ih]

theorem hide_fields_keys (flags : List (String × Bool)) (comb : Bool) :
    ∀ l l', PersonalInfoHider.hide_fields flags comb l = some l' →
      l'.map Prod.fst = l.map Prod.fst := by
  intro l
  induction l with
  | nil =>
    intro l' h
    simp only [PersonalInfoHider.hide_fields] at h
    cases h
    rfl
  | cons p rest ih =>
    intro l' h
    simp only [PersonalInfoHider.hide_fields] at h
    cases h1 : (if (List.lookup p.1 flags).getD false || comb then
        PersonalInfoHider.hide_value p.1 p.2 else some p.2) with
    | none => rw [h1] at h; cases h
    | some v' =>
      rw [h1] at h
      cases h2 : PersonalInfoHider.hide_fields flags comb rest with
      | none => rw [h2] at h; cases h
      | some rest' =>
        rw [h2] at h
        cases h
        simp [ih rest' h2]

/-! ### Claim theorems -/

/-- Claim C1 (code bug): masking is claimed total and never raising, but
`PersonalInfoHider.hide_value` evaluates `text[0]` on the stripped text in
the name-field branch; a truthy whitespace-only value in a `name` field
reaches it with empty text and raises `IndexError` (modelled by `none`).
The exception is reachable from `hide_record` too: a record that is
combinatorially PII and holds a whitespace-only `first_name` raises while
being redacted. -/
theorem c1_hide_value_raises_on_blank_name :
    PersonalInfoHider.hide_value "name" (Value.str " ") = none ∧
    PersonalInfoHider.hide_record
      [("name", Value.str "John Doe"), ("email", Value.str "a@b.co"),
       ("first_name", Value.str " ")] true = none := by
  decide

/-- Claim C2 counterexample: a field named `doc` whose value matches the
passport pattern has standalone verdict `true`, the record's overall verdict
is `true`, and yet the redacted copy leaves the value unchanged — it is not
replaced by `"XXXXXXX"`, refuting "regardless of the field's name". -/
theorem c2_passport_mask_counterexample :
    PersonalInfoFinder.check_single [("doc", Value.str "A1234567")] =
      [("doc", true)] ∧
    PersonalInfoFinder.detect_pii [("doc", Value.str "A1234567")] = true ∧
    PersonalInfoHider.hide_record [("doc", Value.str "A1234567")] true =
      some [("doc", Value.str "A1234567")] := by
  decide

/-- Claim C3 counterexample: in `PIIDetector.detect_standalone_pii`
(sol1.2.py) the payment-handle rule has no allow-list: `user@gmail`
contains exactly one `@`, its suffix `gmail` is not in the allow-list, and
the value matches none of the phone/national-ID/passport patterns, yet the
field is flagged `true`. -/
theorem c3_payment_counterexample :
    PIIDetector.detect_standalone_pii [("x", Value.str "user@gmail")] =
      [("x", true)] ∧
    py_in_strs "gmail" PersonalInfoFinder.upi_domains = false ∧
    "user@gmail".data.countP (fun a => a == '@') = 1 ∧
    PIIDetector.phone_search "user@gmail".data = false ∧
    PIIDetector.aadhar_search "user@gmail".data = false ∧
    PIIDetector.passport_search "user@gmail".data = false := by
  decide

/-- Claim C4 counterexample: `PersonalInfoFinder.check_single`
(detector_full_harish_madhavan_j_u.py) has no name-based override for
`upi_id`: a field named `upi_id` holding the non-empty value `hello` gets
standalone verdict `false` and the record's detect verdict is `false`. -/
theorem c4_upi_id_counterexample :
    PersonalInfoFinder.check_single [("upi_id", Value.str "hello")] =
      [("upi_id", false)] ∧
    PersonalInfoFinder.detect_pii [("upi_id", Value.str "hello")] = false := by
  decide

/-- Claim C5 counterexample: `PIIRedactor.redact_record` (sol1.2.py) maps
`"aadhar" = "1234 5678 9012"` to the fixed placeholder
`"[REDACTED_AADHAR]"`, not to `"XXXX XXXX 9012"`. -/
theorem c5_aadhar_counterexample :
    PIIDetector.detect_pii [("aadhar", Value.str "1234 5678 9012")] = true ∧
    PIIRedactor.redact_record [("aadhar", Value.str "1234 5678 9012")] true =
      [("aadhar", Value.str "[REDACTED_AADHAR]")] := by
  decide

/-- Claim C5 amended: both implementations detect the singleton aadhar
record as PII; `PersonalInfoHider.hide_record` masks it to
`"XXXX XXXX 9012"` as the claim states, while `PIIRedactor.redact_record`
replaces it with `"[REDACTED_AADHAR]"`. -/
theorem c5_aadhar_amended :
    PersonalInfoFinder.detect_pii [("aadhar", Value.str "1234 5678 9012")] =
      true ∧
    PersonalInfoHider.hide_record [("aadhar", Value.str "1234 5678 9012")]
      true = some [("aadhar", Value.str "XXXX XXXX 9012")] ∧
    PIIDetector.detect_pii [("aadhar", Value.str "1234 5678 9012")] = true ∧
    PIIRedactor.redact_record [("aadhar", Value.str "1234 5678 9012")] true =
      [("aadhar", Value.str "[REDACTED_AADHAR]")] := by
  decide

/-- Claim C6 (code bug): a blank-after-trim value is treated as PII-bearing
by both implementations through the name-based overrides.  In
`PersonalInfoFinder`, `{"phone": " "}` (truthy, blank after strip) is
flagged `true`, makes the record PII, and is masked (to the empty string);
in `PIIDetector`, `{"phone": ""}` (not `None`) is flagged `true` as well —
refuting the invariant the spec states. -/
theorem c6_blank_flagged_record :
    PersonalInfoFinder.check_single [("phone", Value.str " ")] =
      [("phone", true)] ∧
    PersonalInfoFinder.detect_pii [("phone", Value.str " ")] = true ∧
    PersonalInfoHider.hide_record [("phone", Value.str " ")] true =
      some [("phone", Value.str "")] ∧
    PIIDetector.detect_standalone_pii [("phone", Value.str "")] =
      [("phone", true)] := by
  decide

/-- Claim C7 counterexample: in `PersonalInfoFinder.check_single` the
`"@" in text` branch has no `else`: the non-empty value `user@gmail`
(one `@`, suffix not in the allow-list, no other rule matching) produces
no entry at all — the returned map is empty, not an explicit `false`. -/
theorem c7_omission_counterexample :
    PersonalInfoFinder.check_single [("x", Value.str "user@gmail")] =
      ([] : List (String × Bool)) ∧
    truthy (Value.str "user@gmail") = true := by
  decide

/-- Claim C8 counterexample: the two files do not implement the same
engine.  On `{"x": "call 9876543210 now"}` the anchored `fullmatch` rules
of `PersonalInfoFinder` see no PII while the unanchored `\b\d{10}\b` search
of `PIIDetector` does, so the two `detect_pii` results differ. -/
theorem c8_engines_differ_counterexample :
    PersonalInfoFinder.detect_pii [("x", Value.str "call 9876543210 now")] =
      false ∧
    PIIDetector.detect_pii [("x", Value.str "call 9876543210 now")] = true := by
  decide

/-- Claim C8 amended: the two files implement observably different engines:
there is a record on which the two detect verdicts differ, and a record and
flag on which the two redactions differ. -/
theorem c8_engines_differ_amended :
    PersonalInfoFinder.detect_pii [("x", Value.str "call 9876543210 now")] ≠
      PIIDetector.detect_pii [("x", Value.str "call 9876543210 now")] ∧
    PersonalInfoHider.hide_record [("aadhar", Value.str "1234 5678 9012")]
        true ≠
      some (PIIRedactor.redact_record [("aadhar", Value.str "1234 5678 9012")]
        true) := by
  decide

/-- Claim C10 (confirmed): in the first implementation every falsy value —
`None`, `""`, `0`, `False` — is skipped at the public interface:
`check_single`'s loop body assigns no verdict for the field (whatever the
field's name) and `hide_value` returns the value unchanged. -/
theorem c10_falsy_skipped (f : String) (v : Value) (h : truthy v = false) :
    PersonalInfoFinder.single_step f v = none ∧
    PersonalInfoHider.hide_value f v = some v := by
  constructor
  · simp [PersonalInfoFinder.single_step, h]
  · simp [PersonalInfoHider.hide_value, h]

/-- Witness for `c10_falsy_skipped` at the PII-named field `phone` holding
the falsy number `0`. -/
theorem c10_falsy_witness :
    PersonalInfoFinder.single_step "phone" (Value.num 0) = none ∧
    PersonalInfoHider.hide_value "phone" (Value.num 0) =
      some (Value.num 0) :=
  c10_falsy_skipped "phone" (Value.num 0) (by decide)

/-- Claim C9 (confirmed): redaction preserves the record's shape in both
implementations: whenever `hide_record` returns a mapping (it can raise,
see C1) the key sequence is unchanged, and `redact_record`'s key sequence
is always unchanged; only values are ever rewritten. -/
theorem c9_shape_preserved :
    (∀ (r : List (String × Value)) (b : Bool) (l' : List (String × Value)),
      PersonalInfoHider.hide_record r b = some l' →
      l'.map Prod.fst = r.map Prod.fst) ∧
    (∀ (r : List (String × Value)) (b : Bool),
      (PIIRedactor.redact_record r b).map Prod.fst = r.map Prod.fst) := by
  constructor
  · intro r b l' h
    cases b with
    | false =>
      simp only [PersonalInfoHider.hide_record, Bool.false_eq_true,
        if_false, Option.some.injEq] at h
      rw [← h]
    | true =>
      simp only [PersonalInfoHider.hide_record, if_true] at h
      exact hide_fields_keys _ _ r l' h
  · intro r b
    cases b with
    | false => simp [PIIRedactor.redact_record]
    | true =>
      simp only [PIIRedactor.redact_record, if_true]
      apply map_fst_map_of_fst_eq
      intro p
      dsimp only
      split
      · rfl
      · split
        · split
          · rfl
          · rfl
        · rfl

/-- Witness for `c9_shape_preserved` at a concrete record and both flag
values. -/
theorem c9_shape_witness :
    ([("k", Value.str "w")] : List (String × Value)).map Prod.fst =
      [("k", Value.str "w")].map Prod.fst ∧
    (PIIRedactor.redact_record [("k", Value.str "w")] true).map Prod.fst =
      [("k", Value.str "w")].map Prod.fst :=
  ⟨c9_shape_preserved.1 [("k", Value.str "w")] false [("k", Value.str "w")]
    (by decide),
   c9_shape_preserved.2 [("k", Value.str "w")] true⟩

/-- Claim C4 amended: the name-based override for `upi_id` exists only in
`PIIDetector` (sol1.2.py): there a field named `upi_id` whose value is not
`None` always gets standalone verdict `true` and makes the record's detect
verdict `true`, whatever the value.  `PersonalInfoFinder` has no such
override (see the counterexample). -/
theorem c4_upi_id_amended (r : List (String × Value)) (v : Value)
    (hmem : ("upi_id", v) ∈ r) (hv : is_null v = false) :
    ("upi_id", true) ∈ PIIDetector.detect_standalone_pii r ∧
    PIIDetector.detect_pii r = true := by
  have e1 : (("upi_id" : String) == "phone") = false := by decide
  have e2 : (("upi_id" : String) == "aadhar") = false := by decide
  have e3 : (("upi_id" : String) == "passport") = false := by decide
  have e4 : (("upi_id" : String) == "upi_id") = true := by decide
  have hstep : PIIDetector.standalone_step "upi_id" v = some true := by
    simp only [PIIDetector.standalone_step, hv, Bool.false_eq_true, if_false]
    cases hs1 : PIIDetector.phone_search ((py_str v).data) <;>
      cases hs2 : PIIDetector.aadhar_search ((py_str v).data) <;>
        cases hs3 : PIIDetector.passport_search ((py_str v).data) <;>
          simp [e1, e2, e3, e4, hs1, hs2, hs3]
  have hin : ("upi_id", true) ∈ PIIDetector.detect_standalone_pii r := by
    simp only [PIIDetector.detect_standalone_pii]
    apply List.mem_filterMap.mpr
    exact ⟨("upi_id", v), hmem, by simp [hstep]⟩
  refine ⟨hin, ?_⟩
  have hany : (PIIDetector.detect_standalone_pii r).any (fun p => p.2) = true :=
    List.any_eq_true.mpr ⟨("upi_id", true), hin, rfl⟩
  simp [PIIDetector.detect_pii, hany]

/-- Witness for `c4_upi_id_amended` on a singleton record whose `upi_id`
value matches no payment-handle pattern. -/
theorem c4_upi_id_witness :
    ("upi_id", true) ∈ PIIDetector.detect_standalone_pii
      [("upi_id", Value.str "hello")] ∧
    PIIDetector.detect_pii [("upi_id", Value.str "hello")] = true :=
  c4_upi_id_amended [("upi_id", Value.str "hello")] (Value.str "hello")
    (by decide) (by decide)

theorem beq_false_of_not_in (f : String) (l : List String)
    (hf : py_in_strs f l = false) : ∀ s ∈ l, (f == s) = false := by
  simp only [py_in_strs, List.any_eq_false] at hf
  intro s hs
  apply beq_eq_false_iff_ne.mpr
  intro hEq
  exact hf s hs (by subst hEq; simp)

theorem not_in_sublist (f : String) (l sub : List String)
    (hf : py_in_strs f l = false) (hsub : ∀ s ∈ sub, s ∈ l) :
    py_in_strs f sub = false := by
  simp only [py_in_strs, List.any_eq_false] at hf ⊢
  intro s hs
  exact hf s (hsub s hs)

/-- Claim C2 amended: the passport placeholder is applied by field name
only.  A truthy value in a field literally named `passport` (whose text the
higher-priority phone/national-ID patterns do not capture) is replaced by
`"XXXXXXX"`; a field of any other, non-rule-triggering name whose trimmed
value matches the passport pattern has standalone verdict `true` but is
returned unchanged by `hide_value`. -/
theorem c2_passport_mask_amended :
    (∀ v : Value, truthy v = true →
      PersonalInfoFinder.phone_fullmatch (py_strip (py_str v)).data = false →
      PersonalInfoFinder.aadhar_fullmatch (py_strip (py_str v)).data = false →
      PersonalInfoHider.hide_value "passport" v = some (Value.str "XXXXXXX")) ∧
    (∀ (f : String) (v : Value),
      py_in_strs f ["phone", "aadhar", "passport", "email", "name",
        "first_name", "last_name", "address", "city", "pin_code", "state"] =
        false →
      truthy v = true →
      PersonalInfoFinder.passport_fullmatch (py_strip (py_str v)).data = true →
      PersonalInfoFinder.single_step f v = some true ∧
      PersonalInfoHider.hide_value f v = some v) := by
  constructor
  · intro v ht hp ha
    have e1 : (("passport" : String) == "phone") = false := by decide
    have e2 : (("passport" : String) == "aadhar") = false := by decide
    simp [PersonalInfoHider.hide_value, ht, e1, e2, hp, ha]
  · intro f v hf ht hpass
    obtain ⟨hph, haad, hem, hat⟩ := passport_shape _ hpass
    have hb := beq_false_of_not_in f _ hf
    have e1 : (f == "phone") = false := hb "phone" (by decide)
    have e2 : (f == "aadhar") = false := hb "aadhar" (by decide)
    have e3 : (f == "passport") = false := hb "passport" (by decide)
    have e4 : (f == "email") = false := hb "email" (by decide)
    have nsub1 : py_in_strs f ["name", "first_name", "last_name"] = false :=
      not_in_sublist f _ _ hf (by decide)
    have nsub2 : py_in_strs f ["address", "city", "pin_code", "state"] = false :=
      not_in_sublist f _ _ hf (by decide)
    constructor
    · simp [PersonalInfoFinder.single_step, ht, e1, e2, e3, e4, hph, haad,
        hpass]
    · simp [PersonalInfoHider.hide_value, ht, e1, e2, e3, hph, haad, hem,
        hat, nsub1, nsub2]

/-- Witness for `c2_passport_mask_amended`: a field named `passport` with a
passport-shaped value is masked to the placeholder; the same value under
the field name `doc` is flagged but passes through `hide_value` unchanged. -/
theorem c2_passport_mask_witness :
    PersonalInfoHider.hide_value "passport" (Value.str "A1234567") =
      some (Value.str "XXXXXXX") ∧
    PersonalInfoFinder.single_step "doc" (Value.str "A1234567") = some true ∧
    PersonalInfoHider.hide_value "doc" (Value.str "A1234567") =
      some (Value.str "A1234567") :=
  ⟨c2_passport_mask_amended.1 (Value.str "A1234567") (by decide) (by decide)
    (by decide),
   (c2_passport_mask_amended.2 "doc" (Value.str "A1234567") (by decide)
    (by decide) (by decide)).1,
   (c2_passport_mask_amended.2 "doc" (Value.str "A1234567") (by decide)
    (by decide) (by decide)).2⟩

/-- Claim C3 amended: the allow-list payment-handle rule holds of
`PersonalInfoFinder` (detector_full_harish_madhavan_j_u.py) exactly as the
claim states: for a field with a truthy value, not name- or
pattern-matched by the phone/national-ID/passport/email rules, the
standalone verdict is `true` iff the text contains exactly one `@` and the
lower-cased suffix after it is in the allow-list.  `PIIDetector`
(sol1.2.py) uses no allow-list at all (see the counterexample). -/
theorem c3_payment_amended (f : String) (v : Value)
    (ht : truthy v = true)
    (_hne : py_strip (py_str v) ≠ "")
    (hf : py_in_strs f ["phone", "aadhar", "passport", "email"] = false)
    (hp1 : PersonalInfoFinder.phone_fullmatch (py_strip (py_str v)).data = false)
    (hp2 : PersonalInfoFinder.aadhar_fullmatch (py_strip (py_str v)).data = false)
    (hp3 : PersonalInfoFinder.passport_fullmatch (py_strip (py_str v)).data = false)
    (hp4 : PersonalInfoFinder.email_fullmatch (py_strip (py_str v)).data = false) :
    PersonalInfoFinder.single_step f v = some true ↔
      ((py_strip (py_str v)).data.countP (fun a => a == '@') = 1 ∧
       py_in_strs (String.mk (to_lower_list
         ((split_on '@' (py_strip (py_str v)).data).getD 1 [])))
         PersonalInfoFinder.upi_domains = true) := by
  have hb := beq_false_of_not_in f _ hf
  have e1 : (f == "phone") = false := hb "phone" (by decide)
  have e2 : (f == "aadhar") = false := hb "aadhar" (by decide)
  have e3 : (f == "passport") = false := hb "passport" (by decide)
  have e4 : (f == "email") = false := hb "email" (by decide)
  have hlen := length_split_on '@' (py_strip (py_str v)).data
  simp only [PersonalInfoFinder.single_step, ht, if_true, e1, e2, e3, e4,
    hp1, hp2, hp3, hp4, Bool.or_self, Bool.or_false, Bool.false_or,
    Bool.false_eq_true, if_false]
  cases hc : ch_in '@' (py_strip (py_str v)).data with
  | false =>
    have hcount : (py_strip (py_str v)).data.countP (fun a => a == '@') = 0 := by
      apply countP_eq_zero_of_none
      simp only [ch_in, List.any_eq_false] at hc
      intro a ha
      simpa using hc a ha
    simp [hcount]
  | true =>
    simp only [if_true]
    constructor
    · intro hsome
      by_cases h2 : (decide ((split_on '@' (py_strip (py_str v)).data).length = 2) &&
          py_in_strs (String.mk (to_lower_list
            ((split_on '@' (py_strip (py_str v)).data).getD 1 [])))
            PersonalInfoFinder.upi_domains) = true
      · simp only [Bool.and_eq_true, decide_eq_true_eq] at h2
        exact ⟨by omega, h2.2⟩
      · rw [if_neg h2] at hsome
        cases hsome
    · rintro ⟨hc1, hc2⟩
      have hl2 : (split_on '@' (py_strip (py_str v)).data).length = 2 := by omega
      have hcond : (decide ((split_on '@' (py_strip (py_str v)).data).length = 2) &&
          py_in_strs (String.mk (to_lower_list
            ((split_on '@' (py_strip (py_str v)).data).getD 1 [])))
            PersonalInfoFinder.upi_domains) = true := by
        rw [decide_eq_true hl2, hc2]
        rfl
      rw [if_pos hcond]

/-- Witness for `c3_payment_amended`: `abc@paytm` under a neutral field
name has exactly one `@`, its suffix is in the allow-list, and the verdict
is `true`. -/
theorem c3_payment_witness :
    PersonalInfoFinder.single_step "x" (Value.str "abc@paytm") = some true :=
  (c3_payment_amended "x" (Value.str "abc@paytm") (by decide) (by decide)
    (by decide) (by decide) (by decide) (by decide) (by decide)).mpr
    ⟨by decide, by decide⟩

/-- Claim C7 amended: in `PersonalInfoFinder.check_single` a truthy-valued
field is recorded unless the `"@" in text` branch is reached and its inner
payment-handle test fails — exactly then the field is omitted from the map
(the branch has no `else`).  In `PIIDetector.detect_standalone_pii` every
non-`None` field is recorded (the chain ends in an explicit `false`). -/
theorem c7_entry_amended :
    (∀ (f : String) (v : Value), truthy v = true →
      (PersonalInfoFinder.single_step f v = none ↔
        ((f == "phone" ||
           PersonalInfoFinder.phone_fullmatch (py_strip (py_str v)).data) = false ∧
         (f == "aadhar" ||
           PersonalInfoFinder.aadhar_fullmatch (py_strip (py_str v)).data) = false ∧
         (f == "passport" ||
           PersonalInfoFinder.passport_fullmatch (py_strip (py_str v)).data) = false ∧
         (f == "email" ||
           PersonalInfoFinder.email_fullmatch (py_strip (py_str v)).data) = false ∧
         ch_in '@' (py_strip (py_str v)).data = true ∧
         (decide ((split_on '@' (py_strip (py_str v)).data).length = 2) &&
           py_in_strs (String.mk (to_lower_list
             ((split_on '@' (py_strip (py_str v)).data).getD 1 [])))
             PersonalInfoFinder.upi_domains) = false))) ∧
    (∀ (f : String) (v : Value), is_null v = false →
      (PIIDetector.standalone_step f v).isSome = true) := by
  constructor
  · intro f v ht
    simp only [PersonalInfoFinder.single_step, ht, if_true]
    cases h1 : (f == "phone" ||
        PersonalInfoFinder.phone_fullmatch (py_strip (py_str v)).data) <;>
      cases h2 : (f == "aadhar" ||
          PersonalInfoFinder.aadhar_fullmatch (py_strip (py_str v)).data) <;>
        cases h3 : (f == "passport" ||
            PersonalInfoFinder.passport_fullmatch (py_strip (py_str v)).data) <;>
          cases h4 : (f == "email" ||
              PersonalInfoFinder.email_fullmatch (py_strip (py_str v)).data) <;>
            cases h5 : ch_in '@' (py_strip (py_str v)).data <;>
              cases h6 : (decide ((split_on '@' (py_strip (py_str v)).data).length = 2) &&
                  py_in_strs (String.mk (to_lower_list
                    ((split_on '@' (py_strip (py_str v)).data).getD 1 [])))
                    PersonalInfoFinder.upi_domains) <;>
                simp_all
  · intro f v hv
    simp [PIIDetector.standalone_step, hv]

/-- Witness for `c7_entry_amended`: `a@b@c` (two `@`s, no other rule) is
omitted by the first implementation; `zzz` is recorded by the second. -/
theorem c7_entry_witness :
    PersonalInfoFinder.single_step "x" (Value.str "a@b@c") = none ∧
    (PIIDetector.standalone_step "x" (Value.str "zzz")).isSome = true :=
  ⟨(c7_entry_amended.1 "x" (Value.str "a@b@c") (by decide)).mpr
    ⟨by decide, by decide, by decide, by decide, by decide, by decide⟩,
   c7_entry_amended.2 "x" (Value.str "zzz") (by decide)⟩
